import Mathlib

/-!
Verification of `keras_cv/bounding_box/converters.py`.

A bounding box is a record whose last axis holds at least four numeric
coordinates followed by an arbitrary trailing payload (`tf.split(boxes,
[1, 1, 1, 1, -1], axis=-1)`).  We embed one row of that tensor as the
structure `BoxRow`: four rational coordinates plus a list of payload
fields.  Exact rational arithmetic stands in for floating point, and the
`dtype` cast (`tf.cast(boxes, dtype)`) is embedded as an arbitrary
function `ℚ → ℚ` applied pointwise to every field of the row.

`images` is used only through `tf.shape(images)[1]` and
`tf.shape(images)[2]`, so it is embedded as the pair `ImageShape` of a
height and a width.  The internal `RequiresImagesException` becomes the
error of `Except Unit`; the `ValueError`s that `convert_format` raises
become the structured type `ConvertError`.
-/

deriving instance DecidableEq for Except

/-- One row of a bounding-box tensor: the four leading coordinates and
the trailing payload fields (class id, confidence, ...). -/
structure BoxRow where
  c0 : ℚ
  c1 : ℚ
  c2 : ℚ
  c3 : ℚ
  rest : List ℚ
deriving DecidableEq, Repr

/-- The part of an image batch that the converters consult:
`tf.shape(images)[1]` (height) and `tf.shape(images)[2]` (width). -/
structure ImageShape where
  height : ℕ
  width : ℕ
deriving DecidableEq, Repr

/-- `tf.cast(boxes, dtype)`: the dtype cast applied to every numeric
field of the row.  Under exact rational arithmetic a cast is just a
function `ℚ → ℚ` (the identity for an exact dtype). -/
def castBox (dtype : ℚ → ℚ) (b : BoxRow) : BoxRow :=
  ⟨dtype b.c0, dtype b.c1, dtype b.c2, dtype b.c3, b.rest.map dtype⟩

/-- The type of the individual converter functions: a box row and an
optional image shape, succeeding with a box row or signalling
`RequiresImagesException` (the `Except Unit` error). -/
def BoxConverter : Type :=
  BoxRow → Option ImageShape → Except Unit BoxRow

/-- `_center_xywh_to_xyxy`. -/
def center_xywh_to_xyxy : BoxConverter := fun b _ =>
  .ok ⟨b.c0 - b.c2 / 2, b.c1 - b.c3 / 2, b.c0 + b.c2 / 2, b.c1 + b.c3 / 2, b.rest⟩

/-- `_xywh_to_xyxy`. -/
def xywh_to_xyxy : BoxConverter := fun b _ =>
  .ok ⟨b.c0, b.c1, b.c0 + b.c2, b.c1 + b.c3, b.rest⟩

/-- `_xyxy_no_op`. -/
def xyxy_no_op : BoxConverter := fun b _ =>
  .ok b

/-- `_xyxy_to_xywh`. -/
def xyxy_to_xywh : BoxConverter := fun b _ =>
  .ok ⟨b.c0, b.c1, b.c2 - b.c0, b.c3 - b.c1, b.rest⟩

/-- `_xyxy_to_center_xywh`. -/
def xyxy_to_center_xywh : BoxConverter := fun b _ =>
  .ok ⟨(b.c0 + b.c2) / 2, (b.c1 + b.c3) / 2, b.c2 - b.c0, b.c3 - b.c1, b.rest⟩

/-- `_rel_xyxy_to_xyxy`: raises `RequiresImagesException` when `images`
is `None`, otherwise scales x by the image width and y by the height. -/
def rel_xyxy_to_xyxy : BoxConverter := fun b images =>
  match images with
  | none => .error ()
  | some img =>
      .ok ⟨b.c0 * img.width, b.c1 * img.height,
           b.c2 * img.width, b.c3 * img.height, b.rest⟩

/-- `_xyxy_to_rel_xyxy`: raises `RequiresImagesException` when `images`
is `None`, otherwise divides x by the image width and y by the height. -/
def xyxy_to_rel_xyxy : BoxConverter := fun b images =>
  match images with
  | none => .error ()
  | some img =>
      .ok ⟨b.c0 / img.width, b.c1 / img.height,
           b.c2 / img.width, b.c3 / img.height, b.rest⟩

/-- The key set of both converter dictionaries, in insertion order. -/
def SUPPORTED_FORMATS : List String :=
  ["xywh", "center_xywh", "xyxy", "rel_xyxy"]

/-- The dictionary `TO_XYXY_CONVERTERS` as a lookup function. -/
def TO_XYXY_CONVERTERS (format : String) : Option BoxConverter :=
  match format with
  | "xywh" => some xywh_to_xyxy
  | "center_xywh" => some center_xywh_to_xyxy
  | "xyxy" => some xyxy_no_op
  | "rel_xyxy" => some rel_xyxy_to_xyxy
  | _ => none

/-- The dictionary `FROM_XYXY_CONVERTERS` as a lookup function. -/
def FROM_XYXY_CONVERTERS (format : String) : Option BoxConverter :=
  match format with
  | "xywh" => some xyxy_to_xywh
  | "center_xywh" => some xyxy_to_center_xywh
  | "xyxy" => some xyxy_no_op
  | "rel_xyxy" => some xyxy_to_rel_xyxy
  | _ => none

/-- The `ValueError`s of `convert_format`, kept structured: the
invalid-format error names the offending argument, the valid key set and
the identifier it got; the missing-images error (raised on catching
`RequiresImagesException`) records the source and target formats. -/
inductive ConvertError where
  | invalidFormat (argument : String) (valid : List String) (got : String)
  | missingImages (source target : String)
deriving DecidableEq, Repr

/-- The body of `convert_format` after the two lowercasing assignments:
reject an unsupported source then an unsupported target, cast the boxes
to `dtype`, return them unchanged when source equals target, and
otherwise pivot through `xyxy` with the two looked-up converters,
turning `RequiresImagesException` into the missing-images
`ValueError`. -/
def convert_format_core (boxes : BoxRow) (source target : String)
    (images : Option ImageShape) (dtype : ℚ → ℚ) : Except ConvertError BoxRow :=
  match TO_XYXY_CONVERTERS source with
  | none => .error (.invalidFormat "source" SUPPORTED_FORMATS source)
  | some to_xyxy_fn =>
  match FROM_XYXY_CONVERTERS target with
  | none => .error (.invalidFormat "target" SUPPORTED_FORMATS target)
  | some from_xyxy_fn =>
  let boxes := castBox dtype boxes
  if source = target then .ok boxes
  else
    match to_xyxy_fn boxes images >>= fun in_xyxy => from_xyxy_fn in_xyxy images with
    | .error _ => .error (.missingImages source target)
    | .ok result => .ok result

/-- `convert_format(boxes, source, target, images, dtype)`:
`source = source.lower()`, `target = target.lower()`, then the
dispatching body `convert_format_core`. -/
def convert_format (boxes : BoxRow) (source target : String)
    (images : Option ImageShape) (dtype : ℚ → ℚ) : Except ConvertError BoxRow :=
  convert_format_core boxes source.toLower target.toLower images dtype

/-- The spec side of the refinement claim: the conversion described as
the composition of exactly two pure functions, `source → corner` then
`corner → target`, on the dtype-cast boxes.  Stated from the spec's
words to be compared with `convert_format`. -/
def pivot_composition (to_xyxy_fn from_xyxy_fn : BoxConverter) (b : BoxRow)
    (images : Option ImageShape) : Except Unit BoxRow :=
  to_xyxy_fn b images >>= fun in_xyxy => from_xyxy_fn in_xyxy images

theorem toLower_data (s : String) : s.toLower = ⟨s.data.map Char.toLower⟩ :=
  String.map_eq _ _

theorem toLower_xywh : "xywh".toLower = "xywh" := by
  rw [toLower_data]; decide

theorem toLower_center_xywh : "center_xywh".toLower = "center_xywh" := by
  rw [toLower_data]; decide

theorem toLower_xyxy : "xyxy".toLower = "xyxy" := by
  rw [toLower_data]; decide

theorem toLower_rel_xyxy : "rel_xyxy".toLower = "rel_xyxy" := by
  rw [toLower_data]; decide

theorem char_toLower_toLower (c : Char) : c.toLower.toLower = c.toLower := by
  have hofNat : ∀ n : Nat, 65 ≤ n → n ≤ 90 → (Char.ofNat (n + 32)).toNat = n + 32 := by
    intro n h1 h2
    have hv : (n + 32).isValidChar := Or.inl (by omega)
    rw [Char.ofNat, dif_pos hv]
    rfl
  by_cases h : 65 ≤ c.toNat ∧ c.toNat ≤ 90
  · have h1 : c.toLower = Char.ofNat (c.toNat + 32) := by
      rw [Char.toLower, if_pos h]
    rw [h1, Char.toLower, if_neg]
    rw [hofNat c.toNat h.1 h.2]
    omega
  · have h1 : c.toLower = c := by
      rw [Char.toLower, if_neg h]
    rw [h1, h1]

theorem string_toLower_toLower (s : String) : s.toLower.toLower = s.toLower := by
  rw [toLower_data, toLower_data]
  simp only [List.map_map]
  congr 1
  exact List.map_congr_left fun c _ => by
    simp only [Function.comp_apply]
    exact char_toLower_toLower c

theorem TO_XYXY_CONVERTERS_eq_none_iff (fmt : String) :
    TO_XYXY_CONVERTERS fmt = none ↔ fmt ∉ SUPPORTED_FORMATS := by
  unfold TO_XYXY_CONVERTERS SUPPORTED_FORMATS
  split <;> simp_all

theorem FROM_XYXY_CONVERTERS_eq_none_iff (fmt : String) :
    FROM_XYXY_CONVERTERS fmt = none ↔ fmt ∉ SUPPORTED_FORMATS := by
  unfold FROM_XYXY_CONVERTERS SUPPORTED_FORMATS
  split <;> simp_all

theorem mem_SUPPORTED_FORMATS_iff (fmt : String) :
    fmt ∈ SUPPORTED_FORMATS ↔
      fmt = "xywh" ∨ fmt = "center_xywh" ∨ fmt = "xyxy" ∨ fmt = "rel_xyxy" := by
  simp [SUPPORTED_FORMATS]

theorem except_bind_eq_ok {ε α β : Type} (e : Except ε α) (f : α → Except ε β)
    (b : β) : e >>= f = .ok b ↔ ∃ a, e = .ok a ∧ f a = .ok b := by
  cases e <;> simp [Bind.bind, Except.bind]

theorem to_xyxy_preserves_rest (fmt : String) (f : BoxConverter)
    (hf : TO_XYXY_CONVERTERS fmt = some f) (b : BoxRow)
    (imgs : Option ImageShape) (b' : BoxRow) (h : f b imgs = .ok b') :
    b'.rest = b.rest := by
  unfold TO_XYXY_CONVERTERS at hf
  split at hf
  all_goals try exact Option.noConfusion hf
  all_goals
    injection hf with hf
    subst hf
    cases imgs <;>
      simp_all [xywh_to_xyxy, center_xywh_to_xyxy, xyxy_no_op, rel_xyxy_to_xyxy] <;>
      (subst h; rfl)

theorem from_xyxy_preserves_rest (fmt : String) (f : BoxConverter)
    (hf : FROM_XYXY_CONVERTERS fmt = some f) (b : BoxRow)
    (imgs : Option ImageShape) (b' : BoxRow) (h : f b imgs = .ok b') :
    b'.rest = b.rest := by
  unfold FROM_XYXY_CONVERTERS at hf
  split at hf
  all_goals try exact Option.noConfusion hf
  all_goals
    injection hf with hf
    subst hf
    cases imgs <;>
      simp_all [xyxy_to_xywh, xyxy_to_center_xywh, xyxy_no_op, xyxy_to_rel_xyxy] <;>
      (subst h; rfl)

theorem convert_format_self (b : BoxRow) (F : String)
    (imgs : Option ImageShape) (dtype : ℚ → ℚ) (hF : F ∈ SUPPORTED_FORMATS) :
    convert_format b F F imgs dtype = .ok (castBox dtype b) := by
  rw [mem_SUPPORTED_FORMATS_iff] at hF
  rcases hF with rfl | rfl | rfl | rfl <;>
    simp [convert_format, toLower_xywh, toLower_center_xywh, toLower_xyxy,
      toLower_rel_xyxy, convert_format_core, TO_XYXY_CONVERTERS,
      FROM_XYXY_CONVERTERS]

theorem castBox_id (b : BoxRow) : castBox id b = b := by
  simp [castBox]

/-- Claim C5: converting any supported format to itself is a no-op
conversion: `convert_format` returns values numerically identical to the
input boxes modulo the requested dtype cast, for any image argument. -/
theorem convert_format_identity (b : BoxRow) (F : String)
    (imgs : Option ImageShape) (dtype : ℚ → ℚ) (hF : F ∈ SUPPORTED_FORMATS) :
    convert_format b F F imgs dtype = .ok (castBox dtype b) :=
  convert_format_self b F imgs dtype hF

theorem convert_format_identity_witness :
    "xywh" ∈ SUPPORTED_FORMATS ∧
      convert_format ⟨1, 2, 3, 4, [5]⟩ "xywh" "xywh" none id =
        .ok (castBox id ⟨1, 2, 3, 4, [5]⟩) :=
  ⟨by decide, convert_format_identity ⟨1, 2, 3, 4, [5]⟩ "xywh" none id (by decide)⟩

/-- Claim C10: when source equals target — the relative format included —
`convert_format` with `images=None` succeeds and returns the cast boxes:
the source-equals-target shortcut returns before any converter that
could demand image context runs. -/
theorem convert_format_self_no_images (b : BoxRow) (F : String) (dtype : ℚ → ℚ)
    (hF : F ∈ SUPPORTED_FORMATS) :
    convert_format b F F none dtype = .ok (castBox dtype b) :=
  convert_format_self b F none dtype hF

theorem convert_format_self_no_images_witness :
    "rel_xyxy" ∈ SUPPORTED_FORMATS ∧
      convert_format ⟨1, 2, 3, 4, [5]⟩ "rel_xyxy" "rel_xyxy" none id =
        .ok (castBox id ⟨1, 2, 3, 4, [5]⟩) :=
  ⟨by decide,
   convert_format_self_no_images ⟨1, 2, 3, 4, [5]⟩ "rel_xyxy" id (by decide)⟩

/-- Claim C7: the corner box `[10, 10, 110, 110]` with a 1000×1000 image
converts to relative corners `[0.01, 0.01, 0.11, 0.11]`, and that result
converts back to `[10, 10, 110, 110]` with the same image. -/
theorem convert_format_concrete_rel_round_trip :
    convert_format ⟨10, 10, 110, 110, []⟩ "xyxy" "rel_xyxy"
        (some ⟨1000, 1000⟩) id =
      .ok ⟨1/100, 1/100, 11/100, 11/100, []⟩ ∧
    convert_format ⟨1/100, 1/100, 11/100, 11/100, []⟩ "rel_xyxy" "xyxy"
        (some ⟨1000, 1000⟩) id =
      .ok ⟨10, 10, 110, 110, []⟩ := by
  constructor <;>
    (simp only [convert_format, toLower_xyxy, toLower_rel_xyxy]
     simp [convert_format_core, TO_XYXY_CONVERTERS, FROM_XYXY_CONVERTERS, castBox,
       xyxy_no_op, xyxy_to_rel_xyxy, rel_xyxy_to_xyxy, Bind.bind, Except.bind]
     norm_num)

/-- Claim C8: the center-format box `[60, 60, 100, 100]` converts from
`center_xywh` to `xywh` as `[10, 10, 100, 100]`. -/
theorem convert_format_concrete_center_to_xywh :
    convert_format ⟨60, 60, 100, 100, []⟩ "center_xywh" "xywh" none id =
      .ok ⟨10, 10, 100, 100, []⟩ := by
  simp only [convert_format, toLower_center_xywh, toLower_xywh]
  simp [convert_format_core, TO_XYXY_CONVERTERS, FROM_XYXY_CONVERTERS, castBox,
    center_xywh_to_xyxy, xyxy_to_xywh, Bind.bind, Except.bind]
  norm_num

/-- Claim C9: format identifiers are case-insensitive: any call of
`convert_format` returns exactly the same result as the call with the
all-lowercase identifiers. -/
theorem convert_format_case_insensitive (b : BoxRow) (s t : String)
    (imgs : Option ImageShape) (dtype : ℚ → ℚ) :
    convert_format b s t imgs dtype =
      convert_format b s.toLower t.toLower imgs dtype := by
  unfold convert_format
  rw [string_toLower_toLower, string_toLower_toLower]

/-- Claim C6: an unrecognized source identifier (after lowercasing) is
rejected immediately with the invalid-format error naming the `source`
argument and enumerating the valid format set, and an unrecognized
target identifier likewise with the error naming `target`. -/
theorem convert_format_invalid_format (b : BoxRow) (s t : String)
    (imgs : Option ImageShape) (dtype : ℚ → ℚ) :
    (s.toLower ∉ SUPPORTED_FORMATS →
      convert_format b s t imgs dtype =
        .error (.invalidFormat "source" SUPPORTED_FORMATS s.toLower)) ∧
    (s.toLower ∈ SUPPORTED_FORMATS → t.toLower ∉ SUPPORTED_FORMATS →
      convert_format b s t imgs dtype =
        .error (.invalidFormat "target" SUPPORTED_FORMATS t.toLower)) := by
  constructor
  · intro hs
    have h1 : TO_XYXY_CONVERTERS s.toLower = none :=
      (TO_XYXY_CONVERTERS_eq_none_iff _).mpr hs
    simp [convert_format, convert_format_core, h1]
  · intro hs ht
    obtain ⟨f, hf⟩ : ∃ f, TO_XYXY_CONVERTERS s.toLower = some f := by
      rw [mem_SUPPORTED_FORMATS_iff] at hs
      rcases hs with h | h | h | h <;> rw [h] <;> exact ⟨_, rfl⟩
    have h2 : FROM_XYXY_CONVERTERS t.toLower = none :=
      (FROM_XYXY_CONVERTERS_eq_none_iff _).mpr ht
    simp [convert_format, convert_format_core, hf, h2]

theorem convert_format_invalid_format_witness :
    ("bogus".toLower ∉ SUPPORTED_FORMATS ∧
      convert_format ⟨1, 2, 3, 4, []⟩ "bogus" "xyxy" none id =
        .error (.invalidFormat "source" SUPPORTED_FORMATS "bogus".toLower)) ∧
    ("xyxy".toLower ∈ SUPPORTED_FORMATS ∧ "bogus".toLower ∉ SUPPORTED_FORMATS ∧
      convert_format ⟨1, 2, 3, 4, []⟩ "xyxy" "bogus" none id =
        .error (.invalidFormat "target" SUPPORTED_FORMATS "bogus".toLower)) := by
  have hb : "bogus".toLower ∉ SUPPORTED_FORMATS := by
    rw [toLower_data]; decide
  have hx : "xyxy".toLower ∈ SUPPORTED_FORMATS := by
    rw [toLower_xyxy]; decide
  exact ⟨⟨hb, (convert_format_invalid_format ⟨1, 2, 3, 4, []⟩ "bogus" "xyxy" none id).1 hb⟩,
         ⟨hx, hb, (convert_format_invalid_format ⟨1, 2, 3, 4, []⟩ "xyxy" "bogus" none id).2 hx hb⟩⟩

/-- Claim C3 (counterexample): with source and target both `rel_xyxy`
and `images=None`, `convert_format` does not raise the missing-context
error: the source-equals-target shortcut returns the boxes. -/
theorem convert_format_rel_self_counterexample :
    convert_format ⟨1, 2, 3, 4, []⟩ "rel_xyxy" "rel_xyxy" none id =
      .ok ⟨1, 2, 3, 4, []⟩ ∧
    convert_format ⟨1, 2, 3, 4, []⟩ "rel_xyxy" "rel_xyxy" none id ≠
      .error (.missingImages "rel_xyxy" "rel_xyxy") := by
  have h := convert_format_self ⟨1, 2, 3, 4, []⟩ "rel_xyxy" none id (by decide)
  rw [castBox_id] at h
  exact ⟨h, by rw [h]; simp⟩

/-- Claim C3 (amended): for every pair of distinct supported formats in
which the source or the target is `rel_xyxy`, calling `convert_format`
with `images=None` fails with the missing-images error, which is a
different constructor from the invalid-format error. -/
theorem convert_format_missing_images (b : BoxRow) (s t : String) (dtype : ℚ → ℚ)
    (hs : s ∈ SUPPORTED_FORMATS) (ht : t ∈ SUPPORTED_FORMATS) (hne : s ≠ t)
    (hrel : s = "rel_xyxy" ∨ t = "rel_xyxy") :
    convert_format b s t none dtype = .error (.missingImages s t) := by
  rw [mem_SUPPORTED_FORMATS_iff] at hs ht
  rcases hs with rfl | rfl | rfl | rfl <;> rcases ht with rfl | rfl | rfl | rfl <;>
    simp_all [convert_format, toLower_xywh, toLower_center_xywh, toLower_xyxy,
      toLower_rel_xyxy, convert_format_core, TO_XYXY_CONVERTERS,
      FROM_XYXY_CONVERTERS, xywh_to_xyxy, center_xywh_to_xyxy, xyxy_no_op,
      rel_xyxy_to_xyxy, xyxy_to_xywh, xyxy_to_center_xywh, xyxy_to_rel_xyxy,
      Bind.bind, Except.bind]

theorem convert_format_missing_images_witness :
    "rel_xyxy" ∈ SUPPORTED_FORMATS ∧ "xywh" ∈ SUPPORTED_FORMATS ∧
      "rel_xyxy" ≠ "xywh" ∧
      convert_format ⟨1, 2, 3, 4, []⟩ "rel_xyxy" "xywh" none id =
        .error (.missingImages "rel_xyxy" "xywh") :=
  ⟨by decide, by decide, by decide,
   convert_format_missing_images ⟨1, 2, 3, 4, []⟩ "rel_xyxy" "xywh" id
     (by decide) (by decide) (by decide) (Or.inl rfl)⟩

/-- Claim C2: whenever `convert_format` succeeds, the trailing payload
fields of the result equal the input's trailing payload fields unchanged
except for the requested dtype cast. -/
theorem convert_format_preserves_rest (b b' : BoxRow) (s t : String)
    (imgs : Option ImageShape) (dtype : ℚ → ℚ)
    (h : convert_format b s t imgs dtype = .ok b') :
    b'.rest = b.rest.map dtype := by
  unfold convert_format convert_format_core at h
  split at h
  · exact Except.noConfusion h
  rename_i fs hfs
  split at h
  · exact Except.noConfusion h
  rename_i ft hft
  split at h
  · injection h with h
    subst h
    rfl
  · simp only [] at h
    split at h
    · exact Except.noConfusion h
    rename_i v hv
    injection h with h
    subst h
    obtain ⟨mid, hmid, hv2⟩ := (except_bind_eq_ok _ _ _).mp hv
    calc v.rest = mid.rest := from_xyxy_preserves_rest _ _ hft _ _ _ hv2
      _ = (castBox dtype b).rest := to_xyxy_preserves_rest _ _ hfs _ _ _ hmid
      _ = b.rest.map dtype := rfl

theorem convert_format_preserves_rest_witness :
    convert_format ⟨0, 0, 0, 0, [7, 8]⟩ "xywh" "xyxy" none id =
      .ok ⟨0, 0, 0, 0, [7, 8]⟩ ∧
    (⟨0, 0, 0, 0, [7, 8]⟩ : BoxRow).rest = [7, 8].map id := by
  have h : convert_format ⟨0, 0, 0, 0, [7, 8]⟩ "xywh" "xyxy" none id =
      .ok ⟨0, 0, 0, 0, [7, 8]⟩ := by
    simp only [convert_format, toLower_xywh, toLower_xyxy]
    simp [convert_format_core, TO_XYXY_CONVERTERS, FROM_XYXY_CONVERTERS,
      castBox, xywh_to_xyxy, xyxy_no_op, Bind.bind, Except.bind]
  exact ⟨h, convert_format_preserves_rest _ _ "xywh" "xyxy" none id h⟩

/-- Claim C4: for distinct supported source and target formats,
`convert_format` is exactly the composition of the two looked-up pure
converters through the absolute-corner pivot, applied to the dtype-cast
boxes, with `RequiresImagesException` mapped to the missing-images
error. -/
theorem convert_format_eq_pivot_composition (b : BoxRow) (s t : String)
    (imgs : Option ImageShape) (dtype : ℚ → ℚ) (fs ft : BoxConverter)
    (hne : s ≠ t)
    (hfs : TO_XYXY_CONVERTERS s = some fs)
    (hft : FROM_XYXY_CONVERTERS t = some ft) :
    convert_format b s t imgs dtype =
      match pivot_composition fs ft (castBox dtype b) imgs with
      | .error _ => .error (.missingImages s t)
      | .ok result => .ok result := by
  have hs : s ∈ SUPPORTED_FORMATS := by
    by_contra hc
    rw [← TO_XYXY_CONVERTERS_eq_none_iff] at hc
    rw [hc] at hfs
    exact Option.noConfusion hfs
  have ht : t ∈ SUPPORTED_FORMATS := by
    by_contra hc
    rw [← FROM_XYXY_CONVERTERS_eq_none_iff] at hc
    rw [hc] at hft
    exact Option.noConfusion hft
  rw [mem_SUPPORTED_FORMATS_iff] at hs ht
  rcases hs with rfl | rfl | rfl | rfl <;> rcases ht with rfl | rfl | rfl | rfl <;>
    simp_all [convert_format, toLower_xywh, toLower_center_xywh, toLower_xyxy,
      toLower_rel_xyxy, convert_format_core, TO_XYXY_CONVERTERS,
      FROM_XYXY_CONVERTERS, pivot_composition]

theorem convert_format_eq_pivot_composition_witness :
    "xywh" ≠ "rel_xyxy" ∧
    TO_XYXY_CONVERTERS "xywh" = some xywh_to_xyxy ∧
    FROM_XYXY_CONVERTERS "rel_xyxy" = some xyxy_to_rel_xyxy ∧
    convert_format ⟨1, 2, 3, 4, []⟩ "xywh" "rel_xyxy" (some ⟨10, 10⟩) id =
      match pivot_composition xywh_to_xyxy xyxy_to_rel_xyxy
          (castBox id ⟨1, 2, 3, 4, []⟩) (some ⟨10, 10⟩) with
      | .error _ => .error (.missingImages "xywh" "rel_xyxy")
      | .ok result => .ok result :=
  ⟨by decide, rfl, rfl,
   convert_format_eq_pivot_composition ⟨1, 2, 3, 4, []⟩ "xywh" "rel_xyxy"
     (some ⟨10, 10⟩) id xywh_to_xyxy xyxy_to_rel_xyxy (by decide) rfl rfl⟩

/-- Claim C1: for every ordered pair of supported formats and every box,
with a consistent image of positive height and width supplied to both
calls, converting A→B and then B→A (under the exact identity dtype)
reproduces the original box exactly. -/
theorem convert_format_round_trip (b : BoxRow) (A B : String) (img : ImageShape)
    (hA : A ∈ SUPPORTED_FORMATS) (hB : B ∈ SUPPORTED_FORMATS)
    (hh : 0 < img.height) (hw : 0 < img.width) :
    (convert_format b A B (some img) id) >>=
        (fun b' => convert_format b' B A (some img) id) = .ok b := by
  have hh' : ((img.height : ℚ)) ≠ 0 := Nat.cast_ne_zero.mpr hh.ne'
  have hw' : ((img.width : ℚ)) ≠ 0 := Nat.cast_ne_zero.mpr hw.ne'
  obtain ⟨x0, x1, x2, x3, xr⟩ := b
  rw [mem_SUPPORTED_FORMATS_iff] at hA hB
  rcases hA with rfl | rfl | rfl | rfl <;> rcases hB with rfl | rfl | rfl | rfl <;>
    (simp only [convert_format, toLower_xywh, toLower_center_xywh, toLower_xyxy,
       toLower_rel_xyxy]
     simp [convert_format_core, TO_XYXY_CONVERTERS, FROM_XYXY_CONVERTERS, castBox,
       xywh_to_xyxy, center_xywh_to_xyxy, xyxy_no_op, rel_xyxy_to_xyxy,
       xyxy_to_xywh, xyxy_to_center_xywh, xyxy_to_rel_xyxy,
       Bind.bind, Except.bind, BoxRow.mk.injEq]
     repeat' apply And.intro
     all_goals (try field_simp)
     all_goals (try ring))

theorem convert_format_round_trip_witness :
    "xywh" ∈ SUPPORTED_FORMATS ∧ "rel_xyxy" ∈ SUPPORTED_FORMATS ∧
    0 < (⟨1000, 500⟩ : ImageShape).height ∧ 0 < (⟨1000, 500⟩ : ImageShape).width ∧
    (convert_format ⟨10, 20, 30, 40, [9]⟩ "xywh" "rel_xyxy"
        (some ⟨1000, 500⟩) id) >>=
      (fun b' => convert_format b' "rel_xyxy" "xywh" (some ⟨1000, 500⟩) id) =
      .ok ⟨10, 20, 30, 40, [9]⟩ :=
  ⟨by decide, by decide, by decide, by decide,
   convert_format_round_trip ⟨10, 20, 30, 40, [9]⟩ "xywh" "rel_xyxy" ⟨1000, 500⟩
     (by decide) (by decide) (by decide) (by decide)⟩
